import Mathlib

/-!
Shallow embedding of `src/calendly-widget.js` (a custom web component that
embeds a Calendly scheduling frame) and proofs about its behaviour.

The embedding follows the source file closely:
* `calendlyUrl` models the `get calendlyUrl` accessor (lines 57-85),
* `minHeight` models the `get minHeight` accessor (lines 87-89),
* `render` models `render()` (lines 180-223),
* `handleMessage` models `handleMessage(event)` (lines 225-263),
* `updateHeight` models `updateHeight(height)` (lines 265-276),
* `connectedCallback` / `disconnectedCallback` model lines 42-49,
* `settleStep` models the scheduling and firing of the 500 ms settle
  timeout created in the iframe load listener (lines 218-222).

JavaScript numbers are modelled by `JSNum` (NaN, the two infinities and
finite integer values; every concrete number appearing in the source and
in the claims is an integer).  The platform URL parser (`new URL`) is
modelled by `parseURL`, restricted to hierarchical `scheme://host...`
URLs, which covers every URL the widget is used with; a string the parser
rejects corresponds to `new URL` throwing.
-/

set_option autoImplicit false

/-- Model of a JavaScript number: NaN, ±Infinity, or a finite value
(restricted to integers, which covers all values used by the widget). -/
inductive JSNum where
  | nan
  | posInf
  | negInf
  | num (n : Int)
deriving DecidableEq, Repr

/-- JavaScript truthiness of a number: `NaN` and `0` are falsy, every
other number (including negative and infinite ones) is truthy.  This is
the test performed by `if (!height) return;` on line 266. -/
def jsTruthy : JSNum → Bool
  | .nan => false
  | .num n => n != 0
  | .posInf => true
  | .negInf => true

/-- Model of `Math.max` on two numbers: NaN propagates, otherwise the
larger value (line 272). -/
def jsMax : JSNum → JSNum → JSNum
  | .nan, _ => .nan
  | _, .nan => .nan
  | .posInf, _ => .posInf
  | _, .posInf => .posInf
  | .negInf, b => b
  | a, .negInf => a
  | .num a, .num b => .num (max a b)

/-- Whether `pat` occurs at the start of `hay` (character lists). -/
def prefixCL : List Char → List Char → Bool
  | [], _ => true
  | _ :: _, [] => false
  | a :: as, b :: bs => (a = b) && prefixCL as bs

/-- Whether `pat` occurs anywhere inside `hay` (character lists). -/
def subCL (pat : List Char) : List Char → Bool
  | [] => prefixCL pat []
  | c :: cs => prefixCL pat (c :: cs) || subCL pat cs

/-- Model of `String.prototype.includes`: does `s` contain `pat` as a
substring?  Used by the origin filter on line 227. -/
def strIncludes (s pat : String) : Bool :=
  subCL pat.data s.data

/-- Splits a character list at the first occurrence of `c`; `none` when
`c` does not occur. -/
def breakAt (c : Char) : List Char → Option (List Char × List Char)
  | [] => none
  | x :: xs =>
    if x = c then some ([], xs)
    else (breakAt c xs).map (fun p => (x :: p.1, p.2))

/-- Splits a character list on every occurrence of `c`. -/
def splitAll (c : Char) : List Char → List (List Char)
  | [] => [[]]
  | x :: xs =>
    let r := splitAll c xs
    if x = c then [] :: r
    else
      match r with
      | [] => [[x]]
      | y :: ys => (x :: y) :: ys

/-- Parses one `key=value` piece of a query string (value empty when no
`=` occurs). -/
def parsePair (cs : List Char) : String × String :=
  match breakAt '=' cs with
  | none => (String.mk cs, "")
  | some (k, v) => (String.mk k, String.mk v)

/-- Parses a raw query string into its ordered key/value pairs, skipping
empty pieces as `URLSearchParams` does. -/
def parseQuery (cs : List Char) : List (String × String) :=
  ((splitAll '&' cs).filter (fun p => p ≠ [])).map parsePair

/-- Structured model of a parsed absolute URL: scheme, host, path, the
ordered query parameters, and the fragment. -/
structure URLModel where
  scheme : String
  host : String
  path : String
  query : List (String × String)
  fragment : Option String
deriving DecidableEq, Repr

/-- Model of the platform URL parser (`new URL(s)`), restricted to
hierarchical URLs of shape `scheme://host[/path][?query][#fragment]`.
Returns `none` exactly where the real parser throws a `TypeError`
(no `scheme://`, or an empty scheme or host). -/
def parseURL (s : String) : Option URLModel :=
  match breakAt ':' s.data with
  | none => none
  | some (scheme, rest) =>
    if scheme = [] then none
    else
      match rest with
      | '/' :: '/' :: rest2 =>
        let fragSplit :=
          match breakAt '#' rest2 with
          | none => (rest2, (none : Option String))
          | some (b, f) => (b, some (String.mk f))
        let querySplit :=
          match breakAt '?' fragSplit.1 with
          | none => (fragSplit.1, ([] : List (String × String)))
          | some (b, q) => (b, parseQuery q)
        let hostPath :=
          match breakAt '/' querySplit.1 with
          | none => (querySplit.1, ([] : List Char))
          | some (h, p) => (h, '/' :: p)
        if hostPath.1 = [] then none
        else
          some { scheme := String.mk scheme
                 host := String.mk hostPath.1
                 path := String.mk hostPath.2
                 query := querySplit.2
                 fragment := fragSplit.2 }
      | _ => none

/-- Model of `URLSearchParams.set`: replaces the first entry with the
given key (deleting any further entries with that key), or appends the
pair when the key is absent. -/
def setParam : List (String × String) → String → String → List (String × String)
  | [], k, v => [(k, v)]
  | p :: ps, k, v =>
    if p.1 = k then (k, v) :: ps.filter (fun q => q.1 != k)
    else p :: setParam ps k v

/-- First value associated with a key in a query-parameter list
(model of `URLSearchParams.get`). -/
def getParam (q : List (String × String)) (k : String) : Option String :=
  (q.find? (fun p => p.1 == k)).map (fun p => p.2)

/-- The widget's configuration attributes, as read by `getAttribute`
(`none` models an absent attribute). -/
structure Attrs where
  url : Option String
  height : Option String
  hideDetails : Option String
  hideGdpr : Option String
  backgroundColor : Option String
  textColor : Option String
  primaryColor : Option String
deriving DecidableEq, Repr

/-- Result of evaluating the `calendlyUrl` getter: the empty string when
the `url` attribute is missing or empty (line 59), a built URL on
success, or a thrown `TypeError` when `new URL` fails (line 61, which
the source does not catch). -/
inductive UrlResult where
  | empty
  | ok (u : URLModel)
  | thrown
deriving DecidableEq, Repr

/-- The query-parameter updates performed by the `calendlyUrl` getter on
a successfully parsed URL (lines 63-82): the five conditional
customization parameters (`getAttribute(x)` is truthy exactly when the
attribute is present and non-empty), then the two unconditional embed
parameters. -/
def applyParams (a : Attrs) (host : String) (q0 : List (String × String)) :
    List (String × String) :=
  let q1 := if a.hideDetails.getD "" = "true"
            then setParam q0 "hide_event_type_details" "1" else q0
  let q2 := if a.hideGdpr.getD "" = "true"
            then setParam q1 "hide_gdpr_banner" "1" else q1
  let q3 := if a.backgroundColor.getD "" ≠ ""
            then setParam q2 "background_color" (a.backgroundColor.getD "") else q2
  let q4 := if a.textColor.getD "" ≠ ""
            then setParam q3 "text_color" (a.textColor.getD "") else q3
  let q5 := if a.primaryColor.getD "" ≠ ""
            then setParam q4 "primary_color" (a.primaryColor.getD "") else q4
  let q6 := setParam q5 "embed_domain" host
  setParam q6 "embed_type" "Inline"

/-- Model of the `get calendlyUrl` accessor (lines 57-85): parses the
`url` attribute, then sets the customization and embed query parameters
exactly as the source does.  `host` is `window.location.hostname`. -/
def calendlyUrl (a : Attrs) (host : String) : UrlResult :=
  let baseUrl := a.url.getD ""
  if baseUrl = "" then .empty
  else
    match parseURL baseUrl with
    | none => .thrown
    | some url => .ok { url with query := applyParams a host url.query }

/-- The names of the query parameters that the `calendlyUrl` getter may
set (the table in §4.1 of the specification). -/
def listedParams : List String :=
  ["hide_event_type_details", "hide_gdpr_banner", "background_color",
   "text_color", "primary_color", "embed_domain", "embed_type"]

/-- Digit-prefix value of a character list; `none` when it does not start
with a digit. -/
def parseDigits (cs : List Char) : Option Int :=
  let ds := cs.takeWhile Char.isDigit
  if ds = [] then none
  else some (ds.foldl (fun a c => a * 10 + ((c.toNat : Int) - 48)) 0)

/-- Model of `parseInt(s, 10)`: optional sign followed by a decimal digit
prefix; `NaN` when no digits are found. -/
def parseIntJS (s : String) : JSNum :=
  match s.data.dropWhile (fun c => c = ' ') with
  | '-' :: rest =>
    match parseDigits rest with
    | none => .nan
    | some n => .num (-n)
  | '+' :: rest =>
    match parseDigits rest with
    | none => .nan
    | some n => .num n
  | cs =>
    match parseDigits cs with
    | none => .nan
    | some n => .num n

/-- Model of the `get minHeight` accessor (lines 87-89):
`parseInt(this.getAttribute('height') || '700', 10)`. -/
def minHeight (a : Attrs) : JSNum :=
  let h := a.height.getD ""
  parseIntJS (if h = "" then "700" else h)

/-- State of an element's inline style and classes, as mutated by the
widget (only the fields the widget touches). -/
structure NodeState where
  styleHeight : Option JSNum
deriving DecidableEq, Repr

/-- The interior node handles of the currently rendered shadow-root
structure that `updateHeight` looks up by id: the element with id
`container` and the iframe (lines 268-269).  `none` models
`getElementById` returning `null` — in the error rendering neither id
exists, and before any render the shadow root is empty. -/
structure RenderedDoc where
  container : Option NodeState
  iframe : Option NodeState
deriving DecidableEq, Repr

/-- Model of `updateHeight(height)` (lines 265-276).  Returns the
updated document together with the list of style writes performed
(`("container", h)` / `("iframe", h)` for `style.height = h + "px"`).
The candidate is numeric or absent (`payload?.height`); `if (!height)`
rejects exactly the falsy numbers. -/
def updateHeight (minH : JSNum) (doc : RenderedDoc) (height : Option JSNum) :
    RenderedDoc × List (String × JSNum) :=
  match height with
  | none => (doc, [])
  | some h =>
    if jsTruthy h = false then (doc, [])
    else
      match doc.container, doc.iframe with
      | some c, some f =>
        let newHeight := jsMax h minH
        ({ container := some { c with styleHeight := some newHeight }
           iframe := some { f with styleHeight := some newHeight } },
         [("container", newHeight), ("iframe", newHeight)])
      | some _, none => (doc, [])
      | none, _ => (doc, [])

/-- Outcome of `render()` (lines 180-223): the error markup (the
"Calendly URL not configured." message, which carries no `container` id
and no iframe), the widget markup with the iframe pointed at the built
URL, or an uncaught exception from the `calendlyUrl` getter on line 181
propagating to the caller. -/
inductive RenderResult where
  | errorMessage
  | widget (u : URLModel)
  | thrown
deriving DecidableEq, Repr

/-- Model of `render()` (lines 180-223): evaluates the `calendlyUrl`
getter and branches on the empty string exactly as `if (!url)` does. -/
def render (a : Attrs) (host : String) : RenderResult :=
  match calendlyUrl a host with
  | .empty => .errorMessage
  | .thrown => .thrown
  | .ok u => .widget u

/-- The node handles available after a render: the error markup exposes
neither id, the widget markup exposes both; a thrown render leaves the
previous shadow-root content in place. -/
def docAfterRender (r : RenderResult) (prev : RenderedDoc) : RenderedDoc :=
  match r with
  | .errorMessage => { container := none, iframe := none }
  | .widget _ => { container := some { styleHeight := none }
                   iframe := some { styleHeight := none } }
  | .thrown => prev

/-- Model of a message payload: the `height` field read by the
`page_height` branch, plus the remaining (opaque) content, carried so
that payload identity is observable. -/
structure PayloadModel where
  height : Option JSNum
  rest : List (String × String)
deriving DecidableEq, Repr

/-- The data carried by an inbound message: the `event` string (absent
models a missing/undefined field) and the `payload`. -/
structure MsgData where
  event : Option String
  payload : Option PayloadModel
deriving DecidableEq, Repr

/-- An inbound `message` event: its `origin` and its `data` (absent
models `null`/`undefined` data). -/
structure MessageEvent where
  origin : String
  data : Option MsgData
deriving DecidableEq, Repr

/-- An outbound `CustomEvent` as dispatched on lines 239-261: its name,
its `detail` (the forwarded payload) and the `bubbles` / `composed`
flags that let it cross the shadow-DOM boundary. -/
structure OutEvent where
  name : String
  detail : Option PayloadModel
  bubbles : Bool
  composed : Bool
deriving DecidableEq, Repr

/-- Result of one `handleMessage` invocation: the (possibly updated)
document, the style writes performed, and the outbound events
dispatched.  The source performs no other effect in this handler (in
particular it never logs a diagnostic). -/
structure HandleResult where
  doc : RenderedDoc
  writes : List (String × JSNum)
  events : List OutEvent
deriving DecidableEq, Repr

/-- Model of `handleMessage(event)` (lines 225-263): the origin filter
`event.origin.includes('calendly.com')`, the `!data || !data.event`
guard (an empty event string is falsy), then the four independent
event-name tests. -/
def handleMessage (minH : JSNum) (doc : RenderedDoc) (ev : MessageEvent) :
    HandleResult :=
  if strIncludes ev.origin "calendly.com" = false then ⟨doc, [], []⟩
  else
    match ev.data with
    | none => ⟨doc, [], []⟩
    | some d =>
      match d.event with
      | none => ⟨doc, [], []⟩
      | some e =>
        if e = "" then ⟨doc, [], []⟩
        else
          let hres :=
            if e = "calendly.page_height"
            then updateHeight minH doc (d.payload.bind PayloadModel.height)
            else (doc, [])
          let evs :=
            (if e = "calendly.event_scheduled"
             then [OutEvent.mk "scheduled" d.payload true true] else []) ++
            (if e = "calendly.date_and_time_selected"
             then [OutEvent.mk "datetime-selected" d.payload true true] else []) ++
            (if e = "calendly.event_type_viewed"
             then [OutEvent.mk "viewed" d.payload true true] else [])
          ⟨hres.1, hres.2, evs⟩

/-- Per-instance state relevant to the lifecycle claims: whether the
instance's bound message handler is currently registered on `window`
(the constructor binds it once, so `addEventListener` /
`removeEventListener` always see the same function reference), and the
current node handles. -/
structure Instance where
  subscribed : Bool
  doc : RenderedDoc
deriving DecidableEq, Repr

/-- Model of `connectedCallback()` (lines 42-45): render, then register
the bound handler.  When `render()` throws, the exception propagates
before `addEventListener` runs, leaving the instance unchanged. -/
def connectedCallback (a : Attrs) (host : String) (i : Instance) : Instance :=
  match render a host with
  | .thrown => i
  | r => { subscribed := true, doc := docAfterRender r i.doc }

/-- Model of `disconnectedCallback()` (lines 47-49): unregister the
bound handler; nothing else is touched. -/
def disconnectedCallback (i : Instance) : Instance :=
  { i with subscribed := false }

/-- Delivery of a `message` event to an instance through the `window`
listener list: the handler runs only while the instance's bound handler
is registered (after `removeEventListener` it is never invoked). -/
def deliverMessage (minH : JSNum) (i : Instance) (ev : MessageEvent) :
    Instance × List (String × JSNum) × List OutEvent :=
  if i.subscribed then
    let r := handleMessage minH i.doc ev
    ({ i with doc := r.doc }, r.writes, r.events)
  else (i, [], [])

/-- The host-runtime happenings relevant to the settle-delay timer. -/
inductive HostStep where
  | rerender
  | frameLoaded
  | disconnect
  | settleFire
deriving DecidableEq, Repr

/-- State for the settle-delay analysis.  `generation` counts renders
(each render wholly replaces the structure); `pending` lists the
generation captured by each scheduled, not-yet-fired settle timeout;
`hiddenApplied` records which generation's loading overlay received the
`hidden` class. -/
structure SettleState where
  connected : Bool
  generation : Nat
  pending : List Nat
  hiddenApplied : List Nat
deriving DecidableEq, Repr

/-- One host-runtime step, modelled from the source:
* `rerender` (`attributeChangedCallback` → `render()`, lines 51-55 and
  180-223): replaces the structure; the source stores no timeout id and
  `render()` contains no `clearTimeout`, so `pending` is untouched;
* `frameLoaded` (load listener, lines 218-222): schedules
  `setTimeout(..., 500)` whose closure captures the current generation's
  `loading` element;
* `disconnect` (`disconnectedCallback`, lines 47-49): only
  `removeEventListener`; no `clearTimeout`, so `pending` is untouched;
* `settleFire`: the host fires the oldest pending timeout; its callback
  runs `loading.classList.add('hidden')` unconditionally on the captured
  element. -/
def settleStep (s : SettleState) : HostStep → SettleState
  | .rerender => { s with generation := s.generation + 1 }
  | .frameLoaded => { s with pending := s.pending ++ [s.generation] }
  | .disconnect => { s with connected := false }
  | .settleFire =>
    match s.pending with
    | [] => s
    | t :: ts => { s with pending := ts, hiddenApplied := s.hiddenApplied ++ [t] }

/-- Runs a sequence of host-runtime steps. -/
def runSettle (steps : List HostStep) (s : SettleState) : SettleState :=
  steps.foldl settleStep s

/-- State right after the initial successful render of generation 1:
mounted, no timer pending, no overlay hidden yet. -/
def settleInit : SettleState :=
  { connected := true, generation := 1, pending := [], hiddenApplied := [] }

/-- The event names `handleMessage` recognizes (lines 233, 238, 247,
256). -/
def recognizedEvents : List String :=
  ["calendly.page_height", "calendly.event_scheduled",
   "calendly.date_and_time_selected", "calendly.event_type_viewed"]

/-- A configuration whose base URL already carries a `background_color`
query parameter while the attribute itself is absent. -/
def attrsPreex : Attrs :=
  { url := some "https://calendly.com/x?background_color=abc"
    height := none, hideDetails := none, hideGdpr := none
    backgroundColor := none, textColor := none, primaryColor := none }

/-- A typical valid configuration supplying two customization
attributes and a base URL with one pre-existing query parameter. -/
def attrsTypical : Attrs :=
  { url := some "https://calendly.com/x?month=2024-01"
    height := none, hideDetails := some "true", hideGdpr := none
    backgroundColor := some "112233", textColor := none, primaryColor := none }

/-- A configuration with no `url` attribute at all. -/
def attrsNoUrl : Attrs :=
  { url := none, height := none, hideDetails := none, hideGdpr := none
    backgroundColor := none, textColor := none, primaryColor := none }

/-- A configuration whose `url` attribute cannot be parsed as an
absolute URL. -/
def attrsBadUrl : Attrs :=
  { attrsNoUrl with url := some "not a url" }

/-- The base URL of `attrsTypical` as parsed by `parseURL`. -/
def urlTypical : URLModel :=
  { scheme := "https", host := "calendly.com", path := "/x"
    query := [("month", "2024-01")], fragment := none }

/-- The request URL the widget builds from `attrsTypical` on host
`example.com`. -/
def urlTypicalResolved : URLModel :=
  { scheme := "https", host := "calendly.com", path := "/x"
    query := [("month", "2024-01"), ("hide_event_type_details", "1"),
              ("background_color", "112233"), ("embed_domain", "example.com"),
              ("embed_type", "Inline")]
    fragment := none }

/-- A rendered widget structure exposing fresh container and iframe
handles. -/
def docBoth : RenderedDoc :=
  { container := some { styleHeight := none }
    iframe := some { styleHeight := none } }

/-- The empty structure: neither the `container` id nor the iframe
exists (error rendering, or before any render). -/
def docNone : RenderedDoc :=
  { container := none, iframe := none }

/-- A well-formed `page_height` payload reporting 1200. -/
def payload1200 : PayloadModel :=
  { height := some (.num 1200), rest := [] }

theorem getParam_cons (p : String × String) (ps : List (String × String)) (k : String) :
    getParam (p :: ps) k = if p.1 = k then some p.2 else getParam ps k := by
  by_cases h : p.1 = k
  · rw [getParam, List.find?_cons_of_pos _ (by simp [h]), if_pos h]
    rfl
  · rw [getParam, List.find?_cons_of_neg _ (by simp [h]), if_neg h]
    rfl

theorem setParam_nil (k v : String) : setParam [] k v = [(k, v)] := rfl

theorem setParam_cons (p : String × String) (ps : List (String × String)) (k v : String) :
    setParam (p :: ps) k v =
      if p.1 = k then (k, v) :: ps.filter (fun q => q.1 != k)
      else p :: setParam ps k v := rfl

theorem getParam_setParam_self (q : List (String × String)) (k v : String) :
    getParam (setParam q k v) k = some v := by
  induction q with
  | nil => rw [setParam_nil, getParam_cons, if_pos rfl]
  | cons p ps ih =>
    rw [setParam_cons]
    by_cases h : p.1 = k
    · rw [if_pos h, getParam_cons, if_pos rfl]
    · rw [if_neg h, getParam_cons, if_neg h, ih]

theorem getParam_filter_ne (ps : List (String × String)) (k k' : String)
    (h : k' ≠ k) :
    getParam (ps.filter (fun q => q.1 != k)) k' = getParam ps k' := by
  induction ps with
  | nil => rfl
  | cons p ps ih =>
    rw [List.filter_cons]
    by_cases hp : p.1 = k
    · have hke : ¬p.1 = k' := fun he => h (he ▸ hp)
      simp only [hp, bne_self_eq_false, cond_false, Bool.false_eq_true, if_false]
      rw [ih, getParam_cons, if_neg hke]
    · have hb : (p.1 != k) = true := by simp [hp]
      simp only [hb, if_true]
      rw [getParam_cons, getParam_cons, ih]

theorem getParam_setParam_other (q : List (String × String)) (k k' v : String)
    (h : k' ≠ k) :
    getParam (setParam q k v) k' = getParam q k' := by
  induction q with
  | nil => rw [setParam_nil, getParam_cons, if_neg (fun he => h (Eq.symm he))]
  | cons p ps ih =>
    rw [setParam_cons]
    by_cases hp : p.1 = k
    · rw [if_pos hp, getParam_cons, if_neg (fun he => h (Eq.symm he)),
        getParam_filter_ne ps k k' h, getParam_cons,
        if_neg (fun he : p.1 = k' => h (he ▸ hp))]
    · rw [if_neg hp, getParam_cons, getParam_cons, ih]

theorem getParam_condSet_other (c : Prop) [Decidable c]
    (q : List (String × String)) (k k' v : String) (h : k' ≠ k) :
    getParam (if c then setParam q k v else q) k' = getParam q k' := by
  by_cases hc : c
  · rw [if_pos hc, getParam_setParam_other q k k' v h]
  · rw [if_neg hc]

theorem applyParams_embedType (a : Attrs) (host : String)
    (q0 : List (String × String)) :
    getParam (applyParams a host q0) "embed_type" = some "Inline" := by
  simp only [applyParams]
  exact getParam_setParam_self _ _ _

theorem applyParams_embedDomain (a : Attrs) (host : String)
    (q0 : List (String × String)) :
    getParam (applyParams a host q0) "embed_domain" = some host := by
  simp only [applyParams]
  rw [getParam_setParam_other _ _ _ _ (by decide), getParam_setParam_self]

theorem applyParams_hideDetails_pos (a : Attrs) (host : String)
    (q0 : List (String × String)) (h : a.hideDetails.getD "" = "true") :
    getParam (applyParams a host q0) "hide_event_type_details" = some "1" := by
  simp only [applyParams]
  rw [getParam_setParam_other _ _ _ _ (by decide),
    getParam_setParam_other _ _ _ _ (by decide),
    getParam_condSet_other _ _ _ _ _ (by decide),
    getParam_condSet_other _ _ _ _ _ (by decide),
    getParam_condSet_other _ _ _ _ _ (by decide),
    getParam_condSet_other _ _ _ _ _ (by decide),
    if_pos h, getParam_setParam_self]

theorem applyParams_hideDetails_neg (a : Attrs) (host : String)
    (q0 : List (String × String)) (h : ¬ a.hideDetails.getD "" = "true") :
    getParam (applyParams a host q0) "hide_event_type_details" =
      getParam q0 "hide_event_type_details" := by
  simp only [applyParams]
  rw [getParam_setParam_other _ _ _ _ (by decide),
    getParam_setParam_other _ _ _ _ (by decide),
    getParam_condSet_other _ _ _ _ _ (by decide),
    getParam_condSet_other _ _ _ _ _ (by decide),
    getParam_condSet_other _ _ _ _ _ (by decide),
    getParam_condSet_other _ _ _ _ _ (by decide),
    if_neg h]

theorem applyParams_hideGdpr_pos (a : Attrs) (host : String)
    (q0 : List (String × String)) (h : a.hideGdpr.getD "" = "true") :
    getParam (applyParams a host q0) "hide_gdpr_banner" = some "1" := by
  simp only [applyParams]
  rw [getParam_setParam_other _ _ _ _ (by decide),
    getParam_setParam_other _ _ _ _ (by decide),
    getParam_condSet_other _ _ _ _ _ (by decide),
    getParam_condSet_other _ _ _ _ _ (by decide),
    getParam_condSet_other _ _ _ _ _ (by decide),
    if_pos h, getParam_setParam_self]

theorem applyParams_hideGdpr_neg (a : Attrs) (host : String)
    (q0 : List (String × String)) (h : ¬ a.hideGdpr.getD "" = "true") :
    getParam (applyParams a host q0) "hide_gdpr_banner" =
      getParam q0 "hide_gdpr_banner" := by
  simp only [applyParams]
  rw [getParam_setParam_other _ _ _ _ (by decide),
    getParam_setParam_other _ _ _ _ (by decide),
    getParam_condSet_other _ _ _ _ _ (by decide),
    getParam_condSet_other _ _ _ _ _ (by decide),
    getParam_condSet_other _ _ _ _ _ (by decide),
    if_neg h, getParam_condSet_other _ _ _ _ _ (by decide)]

theorem applyParams_background_pos (a : Attrs) (host : String)
    (q0 : List (String × String)) (h : a.backgroundColor.getD "" ≠ "") :
    getParam (applyParams a host q0) "background_color" =
      some (a.backgroundColor.getD "") := by
  simp only [applyParams]
  rw [getParam_setParam_other _ _ _ _ (by decide),
    getParam_setParam_other _ _ _ _ (by decide),
    getParam_condSet_other _ _ _ _ _ (by decide),
    getParam_condSet_other _ _ _ _ _ (by decide),
    if_pos h, getParam_setParam_self]

theorem applyParams_background_neg (a : Attrs) (host : String)
    (q0 : List (String × String)) (h : a.backgroundColor.getD "" = "") :
    getParam (applyParams a host q0) "background_color" =
      getParam q0 "background_color" := by
  simp only [applyParams]
  rw [getParam_setParam_other _ _ _ _ (by decide),
    getParam_setParam_other _ _ _ _ (by decide),
    getParam_condSet_other _ _ _ _ _ (by decide),
    getParam_condSet_other _ _ _ _ _ (by decide),
    if_neg (not_not_intro h),
    getParam_condSet_other _ _ _ _ _ (by decide),
    getParam_condSet_other _ _ _ _ _ (by decide)]

theorem applyParams_text_pos (a : Attrs) (host : String)
    (q0 : List (String × String)) (h : a.textColor.getD "" ≠ "") :
    getParam (applyParams a host q0) "text_color" =
      some (a.textColor.getD "") := by
  simp only [applyParams]
  rw [getParam_setParam_other _ _ _ _ (by decide),
    getParam_setParam_other _ _ _ _ (by decide),
    getParam_condSet_other _ _ _ _ _ (by decide),
    if_pos h, getParam_setParam_self]

theorem applyParams_text_neg (a : Attrs) (host : String)
    (q0 : List (String × String)) (h : a.textColor.getD "" = "") :
    getParam (applyParams a host q0) "text_color" =
      getParam q0 "text_color" := by
  simp only [applyParams]
  rw [getParam_setParam_other _ _ _ _ (by decide),
    getParam_setParam_other _ _ _ _ (by decide),
    getParam_condSet_other _ _ _ _ _ (by decide),
    if_neg (not_not_intro h),
    getParam_condSet_other _ _ _ _ _ (by decide),
    getParam_condSet_other _ _ _ _ _ (by decide),
    getParam_condSet_other _ _ _ _ _ (by decide)]

theorem applyParams_primary_pos (a : Attrs) (host : String)
    (q0 : List (String × String)) (h : a.primaryColor.getD "" ≠ "") :
    getParam (applyParams a host q0) "primary_color" =
      some (a.primaryColor.getD "") := by
  simp only [applyParams]
  rw [getParam_setParam_other _ _ _ _ (by decide),
    getParam_setParam_other _ _ _ _ (by decide),
    if_pos h, getParam_setParam_self]

theorem applyParams_primary_neg (a : Attrs) (host : String)
    (q0 : List (String × String)) (h : a.primaryColor.getD "" = "") :
    getParam (applyParams a host q0) "primary_color" =
      getParam q0 "primary_color" := by
  simp only [applyParams]
  rw [getParam_setParam_other _ _ _ _ (by decide),
    getParam_setParam_other _ _ _ _ (by decide),
    if_neg (not_not_intro h),
    getParam_condSet_other _ _ _ _ _ (by decide),
    getParam_condSet_other _ _ _ _ _ (by decide),
    getParam_condSet_other _ _ _ _ _ (by decide),
    getParam_condSet_other _ _ _ _ _ (by decide)]

theorem applyParams_other (a : Attrs) (host : String)
    (q0 : List (String × String)) (name : String)
    (h : name ∉ listedParams) :
    getParam (applyParams a host q0) name = getParam q0 name := by
  simp only [listedParams, List.mem_cons, List.not_mem_nil, or_false, not_or] at h
  obtain ⟨h1, h2, h3, h4, h5, h6, h7⟩ := h
  simp only [applyParams]
  rw [getParam_setParam_other _ _ _ _ h7, getParam_setParam_other _ _ _ _ h6,
    getParam_condSet_other _ _ _ _ _ h5, getParam_condSet_other _ _ _ _ _ h4,
    getParam_condSet_other _ _ _ _ _ h3, getParam_condSet_other _ _ _ _ _ h2,
    getParam_condSet_other _ _ _ _ _ h1]

theorem calendlyUrl_ok (a : Attrs) (host : String) (u : URLModel)
    (hne : ¬ a.url.getD "" = "") (hu : parseURL (a.url.getD "") = some u) :
    calendlyUrl a host = .ok { u with query := applyParams a host u.query } := by
  simp only [calendlyUrl]
  rw [if_neg hne, hu]

/-- C1 (amended): for every valid configuration (url attribute present,
non-empty, and parsable as an absolute URL), the resolved request URL
carries `embed_domain` set to the current host name and `embed_type` set
to `Inline`; each of `background_color`/`text_color`/`primary_color` is
set to the attribute's value exactly when the corresponding attribute is
supplied non-empty, and otherwise keeps whatever value (if any) the base
URL already carried; `hide_event_type_details`/`hide_gdpr_banner` are
set to `"1"` exactly when `hide-details`/`hide-gdpr` equal `"true"`,
and otherwise keep the base URL's value. -/
theorem C1_resolved_request_params (a : Attrs) (host : String) (u u' : URLModel)
    (hne : ¬ a.url.getD "" = "")
    (hu : parseURL (a.url.getD "") = some u)
    (hres : calendlyUrl a host = .ok u') :
    getParam u'.query "embed_domain" = some host ∧
    getParam u'.query "embed_type" = some "Inline" ∧
    (a.backgroundColor.getD "" ≠ "" →
      getParam u'.query "background_color" = some (a.backgroundColor.getD "")) ∧
    (a.backgroundColor.getD "" = "" →
      getParam u'.query "background_color" = getParam u.query "background_color") ∧
    (a.textColor.getD "" ≠ "" →
      getParam u'.query "text_color" = some (a.textColor.getD "")) ∧
    (a.textColor.getD "" = "" →
      getParam u'.query "text_color" = getParam u.query "text_color") ∧
    (a.primaryColor.getD "" ≠ "" →
      getParam u'.query "primary_color" = some (a.primaryColor.getD "")) ∧
    (a.primaryColor.getD "" = "" →
      getParam u'.query "primary_color" = getParam u.query "primary_color") ∧
    (a.hideDetails.getD "" = "true" →
      getParam u'.query "hide_event_type_details" = some "1") ∧
    (¬ a.hideDetails.getD "" = "true" →
      getParam u'.query "hide_event_type_details" =
        getParam u.query "hide_event_type_details") ∧
    (a.hideGdpr.getD "" = "true" →
      getParam u'.query "hide_gdpr_banner" = some "1") ∧
    (¬ a.hideGdpr.getD "" = "true" →
      getParam u'.query "hide_gdpr_banner" = getParam u.query "hide_gdpr_banner") := by
  rw [calendlyUrl_ok a host u hne hu] at hres
  injection hres with h
  subst h
  exact ⟨applyParams_embedDomain a host u.query,
    applyParams_embedType a host u.query,
    fun hb => applyParams_background_pos a host u.query hb,
    fun hb => applyParams_background_neg a host u.query hb,
    fun hb => applyParams_text_pos a host u.query hb,
    fun hb => applyParams_text_neg a host u.query hb,
    fun hb => applyParams_primary_pos a host u.query hb,
    fun hb => applyParams_primary_neg a host u.query hb,
    fun hb => applyParams_hideDetails_pos a host u.query hb,
    fun hb => applyParams_hideDetails_neg a host u.query hb,
    fun hb => applyParams_hideGdpr_pos a host u.query hb,
    fun hb => applyParams_hideGdpr_neg a host u.query hb⟩

/-- C1 counterexample: with a base URL already carrying a
`background_color` query parameter and no `background-color` attribute
supplied, the resolved request still contains `background_color` — the
"only if" direction of the claim fails. -/
theorem C1_counterexample :
    attrsPreex.backgroundColor = none ∧
    calendlyUrl attrsPreex "example.com" =
      .ok { scheme := "https", host := "calendly.com", path := "/x"
            query := [("background_color", "abc"), ("embed_domain", "example.com"),
                      ("embed_type", "Inline")]
            fragment := none } ∧
    getParam [("background_color", "abc"), ("embed_domain", "example.com"),
              ("embed_type", "Inline")] "background_color" = some "abc" := by
  decide

/-- C1 witness: the amended theorem instantiated at `attrsTypical` on
host `example.com`. -/
theorem C1_witness :
    getParam urlTypicalResolved.query "embed_domain" = some "example.com" ∧
    getParam urlTypicalResolved.query "background_color" = some "112233" ∧
    getParam urlTypicalResolved.query "hide_event_type_details" = some "1" ∧
    getParam urlTypicalResolved.query "text_color" = getParam urlTypical.query "text_color" := by
  have h := C1_resolved_request_params attrsTypical "example.com"
    urlTypical urlTypicalResolved (by decide) (by decide) (by decide)
  exact ⟨h.1, h.2.2.1 (by decide), h.2.2.2.2.2.2.2.2.1 rfl,
    h.2.2.2.2.2.1 rfl⟩

/-- C9: building the resolved request from a valid configuration leaves
the scheme, host, path and fragment of the base URL unchanged, and every
pre-existing query parameter whose name is not among the listed
parameters keeps its value. -/
theorem C9_preserves_components (a : Attrs) (host : String) (u u' : URLModel)
    (hne : ¬ a.url.getD "" = "")
    (hu : parseURL (a.url.getD "") = some u)
    (hres : calendlyUrl a host = .ok u') :
    u'.scheme = u.scheme ∧ u'.host = u.host ∧ u'.path = u.path ∧
    u'.fragment = u.fragment ∧
    ∀ name, name ∉ listedParams →
      getParam u'.query name = getParam u.query name := by
  rw [calendlyUrl_ok a host u hne hu] at hres
  injection hres with h
  subst h
  exact ⟨rfl, rfl, rfl, rfl,
    fun name hn => applyParams_other a host u.query name hn⟩

/-- C9 witness: the theorem instantiated at `attrsTypical`, checking in
particular that the pre-existing `month` parameter survives. -/
theorem C9_witness :
    urlTypicalResolved.scheme = urlTypical.scheme ∧
    urlTypicalResolved.path = urlTypical.path ∧
    getParam urlTypicalResolved.query "month" =
      getParam urlTypical.query "month" := by
  have h := C9_preserves_components attrsTypical "example.com"
    urlTypical urlTypicalResolved (by decide) (by decide) (by decide)
  exact ⟨h.1, h.2.2.1, h.2.2.2.2 "month" (by decide)⟩

/-- C4 (amended): a missing or empty `url` attribute makes `render`
display the human-readable "Calendly URL not configured." message in
place of the frame (nothing is thrown); a present but unparsable `url`
makes the `URL` constructor inside the `calendlyUrl` getter throw, and
the exception propagates to the host uncaught — no message is rendered
in that case. -/
theorem C4_missing_and_invalid_url (a : Attrs) (host : String) :
    (a.url.getD "" = "" → render a host = .errorMessage) ∧
    (¬ a.url.getD "" = "" → parseURL (a.url.getD "") = none →
      render a host = .thrown) := by
  constructor
  · intro h
    simp only [render, calendlyUrl]
    rw [if_pos h]
  · intro h hp
    simp only [render, calendlyUrl]
    rw [if_neg h, hp]

/-- C4 counterexample: at `url = "not a url"` the URL constructor throws
and the exception escapes to the host; the claimed rendering of a
visible error message does not happen. -/
theorem C4_counterexample :
    parseURL "not a url" = none ∧
    render attrsBadUrl "example.com" = .thrown ∧
    render attrsBadUrl "example.com" ≠ .errorMessage := by
  decide

/-- C4 witness: the amended theorem instantiated at a configuration with
no `url` and at one with an unparsable `url`. -/
theorem C4_witness :
    render attrsNoUrl "example.com" = .errorMessage ∧
    render attrsBadUrl "example.com" = .thrown := by
  have h1 := C4_missing_and_invalid_url attrsNoUrl "example.com"
  have h2 := C4_missing_and_invalid_url attrsBadUrl "example.com"
  exact ⟨h1.1 (by decide), h2.2 (by decide) (by decide)⟩

/-- C2: for every positive (finite) numeric candidate and a rendered
structure exposing both the container and the iframe, `updateHeight`
computes `max(candidate, minHeight)` and writes that value as the height
of both nodes. -/
theorem C2_updateHeight_clamps (minH n : Int) (doc : RenderedDoc)
    (c f : NodeState) (hc : doc.container = some c) (hf : doc.iframe = some f)
    (hpos : 0 < n) :
    updateHeight (.num minH) doc (some (.num n)) =
      ({ container := some { styleHeight := some (.num (max n minH)) }
         iframe := some { styleHeight := some (.num (max n minH)) } },
       [("container", .num (max n minH)), ("iframe", .num (max n minH))]) := by
  have ht : jsTruthy (JSNum.num n) = true := by
    simp only [jsTruthy, bne_iff_ne, ne_eq]
    omega
  simp only [updateHeight]
  rw [if_neg (by simp [ht])]
  rw [hc, hf]
  rfl

/-- C2 witness: with `minHeight = 700`, a candidate of 500 is clamped to
700 and written to both nodes. -/
theorem C2_witness :
    updateHeight (.num 700) docBoth (some (.num 500)) =
      ({ container := some { styleHeight := some (.num 700) }
         iframe := some { styleHeight := some (.num 700) } },
       [("container", .num 700), ("iframe", .num 700)]) := by
  exact C2_updateHeight_clamps 700 500 docBoth
    { styleHeight := none } { styleHeight := none } rfl rfl (by decide)

/-- C6 (amended): `updateHeight` performs no write exactly when the
candidate is absent or falsy (zero or NaN), or when one of the two node
handles is missing; in every other case — including negative and
infinite candidates — it writes the clamped value to both nodes. -/
theorem C6_noop_iff (minH : JSNum) (doc : RenderedDoc) (height : Option JSNum) :
    updateHeight minH doc height = (doc, []) ↔
      (height = none ∨ (∃ h, height = some h ∧ jsTruthy h = false) ∨
       doc.container = none ∨ doc.iframe = none) := by
  cases height with
  | none => simp [updateHeight]
  | some h =>
    cases hT : jsTruthy h with
    | false => simp [updateHeight, hT]
    | true =>
      cases hC : doc.container with
      | none => simp [updateHeight, hT, hC]
      | some c =>
        cases hF : doc.iframe with
        | none => simp [updateHeight, hT, hC, hF]
        | some f => simp [updateHeight, hT, hC, hF]

/-- C6 counterexample: a candidate of -5 is not a positive number, yet
`updateHeight` is not a no-op — it writes the clamped value 700 to both
nodes. -/
theorem C6_counterexample :
    ¬ (0 < (-5 : Int)) ∧
    (updateHeight (.num 700) docBoth (some (.num (-5)))).2 =
      [("container", .num 700), ("iframe", .num 700)] := by
  decide

/-- C10: when the rendered structure lacks the `container` id or the
iframe (error rendering, or before any successful render),
`updateHeight` performs no write at all and returns normally, for every
candidate. -/
theorem C10_missing_nodes_noop (minH : JSNum) (doc : RenderedDoc)
    (height : Option JSNum)
    (h : doc.container = none ∨ doc.iframe = none) :
    updateHeight minH doc height = (doc, []) := by
  cases height with
  | none => rfl
  | some hv =>
    simp only [updateHeight]
    by_cases hT : jsTruthy hv = false
    · rw [if_pos hT]
    · rw [if_neg hT]
      rcases h with h | h
      · rw [h]
      · rw [h]
        cases hd : doc.container <;> rfl

/-- C10 witness: the structure produced by the error rendering (missing
`url`) exposes neither node, and `updateHeight` with candidate 1200
leaves it untouched. -/
theorem C10_witness :
    updateHeight (.num 700)
      (docAfterRender (render attrsNoUrl "example.com") docNone)
      (some (.num 1200)) =
      (docAfterRender (render attrsNoUrl "example.com") docNone, []) := by
  exact C10_missing_nodes_noop (.num 700) _ (some (.num 1200))
    (Or.inl (by decide))

/-- C3: an inbound message whose origin does not contain the trusted
`calendly.com` domain string, or that carries no recognizable event name
(missing/empty `data.event`, or an event outside the dispatch table), is
discarded with no observable effect: the document is unchanged, no style
write is performed, no outbound event is dispatched (the handler also
logs no diagnostic — its only effects are the ones modelled here). -/
theorem C3_untrusted_or_unrecognized_dropped (minH : JSNum)
    (doc : RenderedDoc) (ev : MessageEvent)
    (h : strIncludes ev.origin "calendly.com" = false ∨
         (∀ d, ev.data = some d → ∀ e, d.event = some e →
           e ∉ recognizedEvents)) :
    handleMessage minH doc ev = ⟨doc, [], []⟩ := by
  simp only [handleMessage]
  by_cases ho : strIncludes ev.origin "calendly.com" = false
  · rw [if_pos ho]
  · rw [if_neg ho]
    rcases h with h | h
    · exact absurd h ho
    · cases hd : ev.data with
      | none => rfl
      | some d =>
        obtain ⟨de, dp⟩ := d
        cases de with
        | none => rfl
        | some e =>
          have hne := h ⟨some e, dp⟩ hd e rfl
          simp only [recognizedEvents, List.mem_cons, List.not_mem_nil,
            or_false, not_or] at hne
          obtain ⟨h1, h2, h3, h4⟩ := hne
          by_cases hemp : e = ""
          · simp only [if_pos hemp]
          · simp only [if_neg hemp, if_neg h1, if_neg h2, if_neg h3,
              if_neg h4, List.append_nil, List.nil_append]

/-- C3 witness: a message from origin `https://not-trusted.example`
carrying a well-formed `page_height` payload of 1200 changes nothing. -/
theorem C3_witness :
    handleMessage (.num 700) docBoth
      { origin := "https://not-trusted.example"
        data := some { event := some "calendly.page_height"
                       payload := some payload1200 } } =
      ⟨docBoth, [], []⟩ := by
  exact C3_untrusted_or_unrecognized_dropped (.num 700) docBoth _
    (Or.inl (by decide))

/-- C7: a trusted-origin message with event `calendly.event_scheduled`
produces exactly one outbound `scheduled` event carrying the payload
unchanged, with `bubbles` and `composed` set so it is observable outside
the shadow-DOM boundary; likewise `calendly.date_and_time_selected`
maps to one `datetime-selected` event and `calendly.event_type_viewed`
to one `viewed` event. -/
theorem C7_event_forwarding (minH : JSNum) (doc : RenderedDoc)
    (origin : String) (p : Option PayloadModel)
    (h : strIncludes origin "calendly.com" = true) :
    handleMessage minH doc
      { origin := origin
        data := some { event := some "calendly.event_scheduled", payload := p } } =
      ⟨doc, [], [{ name := "scheduled", detail := p, bubbles := true, composed := true }]⟩ ∧
    handleMessage minH doc
      { origin := origin
        data := some { event := some "calendly.date_and_time_selected", payload := p } } =
      ⟨doc, [], [{ name := "datetime-selected", detail := p, bubbles := true, composed := true }]⟩ ∧
    handleMessage minH doc
      { origin := origin
        data := some { event := some "calendly.event_type_viewed", payload := p } } =
      ⟨doc, [], [{ name := "viewed", detail := p, bubbles := true, composed := true }]⟩ := by
  have ho : ¬ strIncludes origin "calendly.com" = false := by simp [h]
  refine ⟨?_, ?_, ?_⟩ <;>
    · simp only [handleMessage]
      rw [if_neg ho]
      rfl

/-- C7 witness: the theorem instantiated at a trusted origin and an
opaque payload `{foo: 1}`. -/
theorem C7_witness :
    handleMessage (.num 700) docBoth
      { origin := "https://calendly.com"
        data := some { event := some "calendly.event_scheduled"
                       payload := some { height := none, rest := [("foo", "1")] } } } =
      ⟨docBoth, [],
       [{ name := "scheduled"
          detail := some { height := none, rest := [("foo", "1")] }
          bubbles := true, composed := true }]⟩ := by
  exact (C7_event_forwarding (.num 700) docBoth "https://calendly.com"
    (some { height := none, rest := [("foo", "1")] }) (by decide)).1

/-- C8: once `disconnectedCallback` has removed the instance's bound
handler from the window listener list, delivering any further message —
trusted origin or not — produces zero effect on that instance: its state
is unchanged, no style write happens, no outbound event is dispatched,
and the handler is not invoked at all. -/
theorem C8_detached_zero_effect (minH : JSNum) (i : Instance)
    (ev : MessageEvent) :
    deliverMessage minH (disconnectedCallback i) ev =
      (disconnectedCallback i, [], []) := by
  simp [deliverMessage, disconnectedCallback]

/-- C5 (code defect): the 500 ms settle timeout scheduled by the iframe
load listener is never stored or cleared — `disconnectedCallback` only
removes the message listener and `render()` contains no `clearTimeout` —
so after the frame signals load completion, both a disconnect and a
reconfiguration-triggered re-render leave the timer pending, and when
the host fires it, it still executes against the captured overlay: after
a disconnect it mutates the detached structure, and after a re-render it
mutates the stale generation-1 overlay while the current generation
is 2. -/
theorem C5_settle_timer_fires_when_stale :
    (runSettle [.frameLoaded, .disconnect, .settleFire] settleInit).connected
        = false ∧
    (runSettle [.frameLoaded, .disconnect, .settleFire] settleInit).hiddenApplied
        = [1] ∧
    (runSettle [.frameLoaded, .rerender, .settleFire] settleInit).generation
        = 2 ∧
    (runSettle [.frameLoaded, .rerender, .settleFire] settleInit).hiddenApplied
        = [1] := by
  decide
